import Mathlib

/-!
Verification of the company-classification pipeline (`src/main.py`).

The Python program is shallowly embedded:

* `CompanyAnalysis` mirrors the pydantic response model (no range
  constraints are declared on the integer scores, exactly as in the
  source, where `Field` is imported but never used).
* `get_gpt_analysis` is modelled as a function of the provider outcome:
  a successful provider call delivers a parsed `CompanyAnalysis`
  (`Except.ok`), any raised exception or malformed response is
  `Except.error` with the exception message; the `try/except` block
  becomes a `match`.
* Growth percentages are modelled as rationals (`ℚ`), the idealisation
  of the Python floats; the possibly-missing 2-year figure
  (`pd.isna(growth_2y)`) is an `Option ℚ`.
* The employee-location distribution is modelled at the parsing
  boundary: `none` stands for a string that `json.loads` rejects,
  `some d` for the successfully parsed region → count dictionary
  (an association list, as dict keys are unique).
* `classify_companies` iterates a list of (record, provider outcome)
  pairs; the per-row body is `classify_company`.
* The final CSV row (the dict literal appended to `results`) is the
  structure `ClassificationRow`, with exactly the twelve keys the
  source writes.
-/

/-- Pydantic model for the GPT company analysis response
(`CompanyAnalysis` in `src/main.py`). The score fields are plain
integers: the source declares no bounds on them. -/
structure CompanyAnalysis where
  is_saas : Bool
  growth_potential : Int
  risk_level : Int
  key_strengths : List String
  concerns : List String
  target_market : String
  competitive_advantage : String
  deriving Repr, DecidableEq

/-- The outcome of one provider call: `ok` with the parsed response, or
`error` with the exception message. -/
abbrev ProviderOutcome := Except String CompanyAnalysis

/-- `CompanyClassifier.get_gpt_analysis`: return the parsed response on
success; on any exception return the hard-coded fallback object from the
`except` branch. -/
def get_gpt_analysis (outcome : ProviderOutcome) : CompanyAnalysis :=
  match outcome with
  | Except.ok parsed => parsed
  | Except.error _ =>
      { is_saas := false
        growth_potential := 0
        risk_level := 10
        key_strengths := ["Analysis failed"]
        concerns := ["Analysis failed"]
        target_market := "Unknown"
        competitive_advantage := "Unknown" }

/-- `CompanyClassifier.is_founded_recently`:
`self.current_year - founded_year <= 5`. -/
def is_founded_recently (current_year founded_year : Int) : Bool :=
  current_year - founded_year ≤ 5

/-- `CompanyClassifier.has_valid_employee_count`:
`20 <= employee_count <= 60`. -/
def has_valid_employee_count (employee_count : Int) : Bool :=
  20 ≤ employee_count ∧ employee_count ≤ 60

/-- Whether `needle` occurs as a contiguous substring of the character
list (Python's `needle in hay`). -/
def charsContain (needle : List Char) : List Char → Bool
  | [] => needle.isEmpty
  | c :: cs => needle.isPrefixOf (c :: cs) || charsContain needle cs

/-- Python's `sub in s` substring test on strings. -/
def strContains (hay needle : String) : Bool :=
  charsContain needle.data hay.data

/-- `CompanyClassifier.is_north_american`:
`any(country in headquarters for country in ['USA', 'Canada'])`. -/
def is_north_american (headquarters : String) : Bool :=
  strContains headquarters "USA" || strContains headquarters "Canada"

/-- A parsed employee-location distribution: `none` when `json.loads`
raises on the (quote-normalised) text, `some d` otherwise. -/
abbrev Locations := Option (List (String × Int))

/-- `sum(loc_dict.values())`. -/
def total_employees_of (d : List (String × Int)) : Int :=
  (d.map Prod.snd).sum

/-- `loc_dict.get('USA', 0) + loc_dict.get('Canada', 0)`. -/
def na_employees_of (d : List (String × Int)) : Int :=
  (d.lookup "USA").getD 0 + (d.lookup "Canada").getD 0

/-- `CompanyClassifier.is_mostly_north_american`. A parse failure was
already folded into `none`; the remaining runtime exception in the
`try` body is the `ZeroDivisionError` when the total is zero, which the
bare `except` also turns into `False`. -/
def is_mostly_north_american (locations : Locations) : Bool :=
  match locations with
  | none => false
  | some loc_dict =>
      let total_employees := total_employees_of loc_dict
      let na_employees := na_employees_of loc_dict
      if total_employees = 0 then false
      else decide ((na_employees : ℚ) / (total_employees : ℚ) > 0.5)

/-- `CompanyClassifier.has_stable_growth`. `growth_2y = none` models
`pd.isna(growth_2y)`; the chained Python comparison
`growth_1y > growth_6m > 0` is the conjunction of its two links. -/
def has_stable_growth (growth_2y : Option ℚ) (growth_1y growth_6m : ℚ) : Bool :=
  match growth_2y with
  | none => decide (growth_1y > growth_6m ∧ growth_6m > 0)
  | some g2 =>
      let r1 := g2 / 2
      let r2 := growth_1y
      let r3 := growth_6m * 2
      let mn := min r1 (min r2 r3)
      let mx := max r1 (max r2 r3)
      if mn ≤ 0 then false
      else decide (mx / mn < 3)

/-- The growth-stability rule exactly as the spec words it (§4.1): with
a defined 2-year rate, form the three annualized rates and require all
three strictly positive and the max/min ratio strictly below 3. -/
def specStableGrowth (growth_2y : Option ℚ) (growth_1y growth_6m : ℚ) : Bool :=
  match growth_2y with
  | none => decide (growth_1y > growth_6m ∧ growth_6m > 0)
  | some g2 =>
      let a1 := g2 / 2
      let a2 := growth_1y
      let a3 := growth_6m * 2
      decide (0 < a1 ∧ 0 < a2 ∧ 0 < a3 ∧
        max a1 (max a2 a3) / min a1 (min a2 a3) < 3)

/-- Division guarded the way the claim describes it: defined only when
the divisor is strictly positive. -/
def posDiv (a b : ℚ) : Option ℚ :=
  if b ≤ 0 then none else some (a / b)

/-- `has_stable_growth` with the ratio division made partial: the
result is `none` if the `max(rates) / min(rates)` expression were ever
reached with a non-positive divisor. -/
def has_stable_growth_checked (growth_2y : Option ℚ)
    (growth_1y growth_6m : ℚ) : Option Bool :=
  match growth_2y with
  | none => some (decide (growth_1y > growth_6m ∧ growth_6m > 0))
  | some g2 =>
      let r1 := g2 / 2
      let r2 := growth_1y
      let r3 := growth_6m * 2
      let mn := min r1 (min r2 r3)
      let mx := max r1 (max r2 r3)
      if mn ≤ 0 then some false
      else (posDiv mx mn).map (fun q => decide (q < 3))

/-- One row of the input CSV, with the fields `classify_companies`
reads. Growth percentages are rationals; the 2-year figure may be NA. -/
structure CompanyRecord where
  company_name : String
  industry : String
  description : String
  founded_year : Int
  total_employees : Int
  headquarters : String
  employee_locations : Locations
  growth_2y : Option ℚ
  growth_1y : ℚ
  growth_6m : ℚ
  deriving Repr, DecidableEq

/-- The dict literal appended to `results` in `classify_companies`:
exactly the twelve keys the source writes, in source order. -/
structure ClassificationRow where
  company_name : String
  founded_year : Int
  total_employees : Int
  headquarters : String
  industry : String
  growth_potential : Int
  risk_level : Int
  key_strengths : String
  concerns : String
  target_market : String
  competitive_advantage : String
  interesting : String
  deriving Repr, DecidableEq

/-- The `basic_criteria_met` conjunction of `classify_companies`
(the five heuristic predicates). -/
def basic_criteria_met (current_year : Int) (c : CompanyRecord) : Bool :=
  is_founded_recently current_year c.founded_year &&
  has_valid_employee_count c.total_employees &&
  is_north_american c.headquarters &&
  is_mostly_north_american c.employee_locations &&
  has_stable_growth c.growth_2y c.growth_1y c.growth_6m

/-- The `advanced_criteria_met` conjunction of `classify_companies`. -/
def advanced_criteria_met (a : CompanyAnalysis) : Bool :=
  a.is_saas && decide (a.growth_potential ≥ 7) && decide (a.risk_level ≤ 6)

/-- The loop body of `classify_companies` for one company: call the
port, evaluate both criteria groups, build the result row. -/
def classify_company (current_year : Int) (c : CompanyRecord)
    (outcome : ProviderOutcome) : ClassificationRow :=
  let gpt_analysis := get_gpt_analysis outcome
  let basic := basic_criteria_met current_year c
  let advanced := advanced_criteria_met gpt_analysis
  let interesting := basic && advanced
  { company_name := c.company_name
    founded_year := c.founded_year
    total_employees := c.total_employees
    headquarters := c.headquarters
    industry := c.industry
    growth_potential := gpt_analysis.growth_potential
    risk_level := gpt_analysis.risk_level
    key_strengths := String.intercalate ", " gpt_analysis.key_strengths
    concerns := String.intercalate ", " gpt_analysis.concerns
    target_market := gpt_analysis.target_market
    competitive_advantage := gpt_analysis.competitive_advantage
    interesting := if interesting then "Yes" else "No" }

/-- `CompanyClassifier.classify_companies`: one result row per input
row, in source order. Each row is paired with the outcome of its
provider call. -/
def classify_companies (current_year : Int)
    (rows : List (CompanyRecord × ProviderOutcome)) : List ClassificationRow :=
  rows.map (fun p => classify_company current_year p.1 p.2)

/-- `total = len(results)` in `main`. -/
def batch_total (rows : List ClassificationRow) : Nat :=
  rows.length

/-- `interesting = sum(results['Interesting'] == 'Yes')` in `main`. -/
def batch_interesting (rows : List ClassificationRow) : Nat :=
  (rows.filter (fun r => r.interesting == "Yes")).length

/-- Floor of a rational. -/
def qfloor (q : ℚ) : Int :=
  ⌊q⌋

/-- Round `q` to tenths (the integer number of tenths), resolving exact
halves to the even neighbour. This is what Python's `:.1f` format does
on the exact value of its argument. -/
def roundHalfEvenTenths (q : ℚ) : Int :=
  let x := 10 * q
  let n := qfloor x
  let f := x - (n : ℚ)
  if f < 1 / 2 then n
  else if 1 / 2 < f then n + 1
  else if n % 2 = 0 then n else n + 1

/-- Round `q` to tenths, resolving exact halves away from zero (the
rounding mode the spec names for the summary percentage). -/
def roundHalfAwayTenths (q : ℚ) : Int :=
  let x := 10 * q
  let n := qfloor x
  let f := x - (n : ℚ)
  if f < 1 / 2 then n
  else if 1 / 2 < f then n + 1
  else if x < 0 then n else n + 1

/-- The summary percentage `(interesting/total)*100` printed by `main`
with `:.1f`, as an integer count of tenths of a percent. The float
division and product are idealised as exact rational arithmetic, and
the format step as half-to-even rounding of the exact value. -/
def batch_pct_tenths (rows : List ClassificationRow) : Int :=
  roundHalfEvenTenths
    ((batch_interesting rows : ℚ) / (batch_total rows : ℚ) * 100)

/-! ## Helper lemmas -/

lemma min_mul_left_pos (c a b : ℚ) (hc : 0 < c) :
    min (c * a) (c * b) = c * min a b := by
  rcases le_total a b with h | h
  · rw [min_eq_left h, min_eq_left (mul_le_mul_of_nonneg_left h hc.le)]
  · rw [min_eq_right h, min_eq_right (mul_le_mul_of_nonneg_left h hc.le)]

lemma max_mul_left_pos (c a b : ℚ) (hc : 0 < c) :
    max (c * a) (c * b) = c * max a b := by
  rcases le_total a b with h | h
  · rw [max_eq_right h, max_eq_right (mul_le_mul_of_nonneg_left h hc.le)]
  · rw [max_eq_left h, max_eq_left (mul_le_mul_of_nonneg_left h hc.le)]

lemma mul_nonpos_left_iff (c a : ℚ) (hc : 0 < c) : c * a ≤ 0 ↔ a ≤ 0 := by
  constructor
  · intro h
    by_contra hn
    push_neg at hn
    exact absurd (mul_pos hc hn) (not_lt.mpr h)
  · intro h
    exact mul_nonpos_iff.mpr (Or.inl ⟨hc.le, h⟩)

lemma interesting_eq (current_year : Int) (c : CompanyRecord)
    (outcome : ProviderOutcome) :
    (classify_company current_year c outcome).interesting =
      (if basic_criteria_met current_year c &&
          advanced_criteria_met (get_gpt_analysis outcome)
       then "Yes" else "No") := rfl

/-! ## Claims about the growth-stability evaluator -/

/-- C2: the growth-stability evaluator agrees with the spec's reference
definition (§4.1) on every input triplet: for an undefined 2-year rate,
stable iff `1y > 6m > 0`; otherwise stable iff all three annualized
rates are strictly positive and the max/min ratio is strictly below 3. -/
theorem growth_matches_spec_reference (growth_2y : Option ℚ)
    (growth_1y growth_6m : ℚ) :
    has_stable_growth growth_2y growth_1y growth_6m =
      specStableGrowth growth_2y growth_1y growth_6m := by
  cases growth_2y with
  | none => rfl
  | some g2 =>
    simp only [has_stable_growth, specStableGrowth]
    by_cases h : min (g2 / 2) (min growth_1y (growth_6m * 2)) ≤ 0
    · rw [if_pos h, eq_comm, decide_eq_false_iff_not]
      rintro ⟨h1, h2, h3, -⟩
      exact absurd (lt_min h1 (lt_min h2 h3)) (not_lt.mpr h)
    · rw [if_neg h, decide_eq_decide]
      push_neg at h
      obtain ⟨h1, h23⟩ := lt_min_iff.mp h
      obtain ⟨h2, h3⟩ := lt_min_iff.mp h23
      exact ⟨fun hr => ⟨h1, h2, h3, hr⟩, fun hr => hr.2.2.2⟩

/-- C7: in the defined-2-year branch, the `max(rates)/min(rates)`
division only runs after the `min(rates) <= 0` early return, so the
partial variant (whose division is undefined on a non-positive divisor)
is total and agrees with the evaluator on every input triplet. -/
theorem growth_ratio_division_safe (growth_2y : Option ℚ)
    (growth_1y growth_6m : ℚ) :
    has_stable_growth_checked growth_2y growth_1y growth_6m =
      some (has_stable_growth growth_2y growth_1y growth_6m) := by
  cases growth_2y with
  | none => rfl
  | some g2 =>
    simp only [has_stable_growth_checked, has_stable_growth, posDiv]
    by_cases h : min (g2 / 2) (min growth_1y (growth_6m * 2)) ≤ 0
    · rw [if_pos h, if_pos h]
    · rw [if_neg h, if_neg h, if_neg h, Option.map_some']

/-- C10: the growth-stability verdict is invariant under scaling the
whole triplet by any constant `c > 0`, in both the undefined- and
defined-2-year branches. -/
theorem growth_scale_invariant (growth_2y : Option ℚ)
    (growth_1y growth_6m c : ℚ) (hc : 0 < c) :
    has_stable_growth (growth_2y.map (fun x => c * x))
        (c * growth_1y) (c * growth_6m) =
      has_stable_growth growth_2y growth_1y growth_6m := by
  cases growth_2y with
  | none =>
    simp only [Option.map_none', has_stable_growth, decide_eq_decide,
      gt_iff_lt, mul_lt_mul_left hc]
    constructor
    · rintro ⟨h1, h2⟩
      refine ⟨h1, ?_⟩
      by_contra hn
      push_neg at hn
      exact absurd h2
        (not_lt.mpr (mul_nonpos_iff.mpr (Or.inl ⟨hc.le, hn⟩)))
    · rintro ⟨h1, h2⟩
      exact ⟨h1, mul_pos hc h2⟩
  | some g2 =>
    simp only [Option.map_some', has_stable_growth]
    have e1 : c * g2 / 2 = c * (g2 / 2) := by ring
    have e2 : c * growth_6m * 2 = c * (growth_6m * 2) := by ring
    rw [e1, e2, min_mul_left_pos c growth_1y (growth_6m * 2) hc,
      min_mul_left_pos c (g2 / 2) _ hc,
      max_mul_left_pos c growth_1y (growth_6m * 2) hc,
      max_mul_left_pos c (g2 / 2) _ hc]
    by_cases h : min (g2 / 2) (min growth_1y (growth_6m * 2)) ≤ 0
    · rw [if_pos h, if_pos ((mul_nonpos_left_iff c _ hc).mpr h)]
    · rw [if_neg h, if_neg (fun hx => h ((mul_nonpos_left_iff c _ hc).mp hx)),
        mul_div_mul_left _ _ (ne_of_gt hc)]

/-! ## Claims about the heuristic predicates -/

/-- C9: `is_founded_recently` only bounds the company age from above,
so any founded year strictly in the future (negative age) passes: there
is no lower-bound or validity check on the year. -/
theorem founded_in_future_passes (current_year founded_year : Int)
    (h : current_year < founded_year) :
    is_founded_recently current_year founded_year = true := by
  simp only [is_founded_recently, decide_eq_true_eq]
  omega

theorem founded_in_future_passes_witness :
    (2025 : Int) < 2026 ∧ is_founded_recently 2025 2026 = true :=
  ⟨by decide, founded_in_future_passes 2025 2026 (by decide)⟩

/-- C6: on a parsed distribution the predicate is exactly the test
`(USA + Canada) / total > 0.5` (with the zero-total division failure
collapsed to `false`), and on an unparseable distribution (`none`) it
is `false`; being a total `Bool` function, it raises nothing. -/
theorem mostly_north_american_spec (d : List (String × Int)) :
    (is_mostly_north_american (some d) = true ↔
      ((na_employees_of d : ℚ) / (total_employees_of d : ℚ) > 0.5)) ∧
    (total_employees_of d = 0 → is_mostly_north_american (some d) = false) ∧
    is_mostly_north_american none = false := by
  refine ⟨?_, ?_, rfl⟩
  · simp only [is_mostly_north_american]
    by_cases h : total_employees_of d = 0
    · rw [if_pos h, h]
      norm_num
    · rw [if_neg h, decide_eq_true_eq]
  · intro h
    simp only [is_mostly_north_american]
    rw [if_pos h]

theorem mostly_north_american_spec_witness :
    (is_mostly_north_american (some ([] : List (String × Int))) = true ↔
      ((na_employees_of ([] : List (String × Int)) : ℚ) /
        (total_employees_of ([] : List (String × Int)) : ℚ) > 0.5)) ∧
    is_mostly_north_american (some ([] : List (String × Int))) = false ∧
    is_mostly_north_american none = false :=
  ⟨(mostly_north_american_spec []).1,
   (mostly_north_american_spec []).2.1 rfl,
   (mostly_north_american_spec []).2.2⟩

/-! ## Claims about the classification engine -/

/-- C1: a record's output `Interesting` column is `"Yes"` iff the five
heuristic predicates all hold and the external verdict satisfies
`is_saas`, `growth_potential >= 7` and `risk_level <= 6`; in every
other case the column is `"No"`. -/
theorem interesting_iff_all_criteria (current_year : Int)
    (c : CompanyRecord) (outcome : ProviderOutcome) :
    ((classify_company current_year c outcome).interesting = "Yes" ↔
      ((is_founded_recently current_year c.founded_year = true ∧
        has_valid_employee_count c.total_employees = true ∧
        is_north_american c.headquarters = true ∧
        is_mostly_north_american c.employee_locations = true ∧
        has_stable_growth c.growth_2y c.growth_1y c.growth_6m = true) ∧
       ((get_gpt_analysis outcome).is_saas = true ∧
        (get_gpt_analysis outcome).growth_potential ≥ 7 ∧
        (get_gpt_analysis outcome).risk_level ≤ 6))) ∧
    ((classify_company current_year c outcome).interesting = "Yes" ∨
     (classify_company current_year c outcome).interesting = "No") := by
  rw [interesting_eq]
  by_cases hb : (basic_criteria_met current_year c &&
      advanced_criteria_met (get_gpt_analysis outcome)) = true
  · rw [if_pos hb]
    simp only [Bool.and_eq_true, basic_criteria_met, advanced_criteria_met,
      decide_eq_true_eq, ge_iff_le] at hb
    obtain ⟨⟨⟨⟨⟨h1, h2⟩, h3⟩, h4⟩, h5⟩, ⟨hs, hg⟩, hr⟩ := hb
    exact ⟨⟨fun _ => ⟨⟨h1, h2, h3, h4, h5⟩, hs, hg, hr⟩, fun _ => rfl⟩,
      Or.inl rfl⟩
  · rw [if_neg hb]
    have hne : ("No" : String) = "Yes" → False := by decide
    refine ⟨⟨fun h => absurd h hne, ?_⟩, Or.inr rfl⟩
    rintro ⟨⟨h1, h2, h3, h4, h5⟩, hs, hg, hr⟩
    refine absurd ?_ hb
    simp only [Bool.and_eq_true, basic_criteria_met, advanced_criteria_met,
      decide_eq_true_eq, ge_iff_le]
    exact ⟨⟨⟨⟨⟨h1, h2⟩, h3⟩, h4⟩, h5⟩, ⟨hs, hg⟩, hr⟩

/-- C3: when the provider call fails with any exception, the port
returns exactly the sentinel verdict, and the engine still emits a row
for the record, with `Interesting = "No"`. -/
theorem provider_failure_fail_closed (e : String) (current_year : Int)
    (c : CompanyRecord) :
    get_gpt_analysis (Except.error e) =
      { is_saas := false
        growth_potential := 0
        risk_level := 10
        key_strengths := ["Analysis failed"]
        concerns := ["Analysis failed"]
        target_market := "Unknown"
        competitive_advantage := "Unknown" } ∧
    (classify_company current_year c (Except.error e)).interesting = "No" := by
  refine ⟨rfl, ?_⟩
  rw [interesting_eq]
  have hadv : advanced_criteria_met (get_gpt_analysis (Except.error e)) =
      false := rfl
  rw [hadv, Bool.and_false]
  rfl

/-! ## Claims about the verdict invariant and the emitted row -/

/-- A well-formed provider response whose growth score is 11: the
pydantic model declares `growth_potential : int` with no bounds, so the
port passes it through. -/
def overRangeAnalysis : CompanyAnalysis :=
  { is_saas := true
    growth_potential := 11
    risk_level := 3
    key_strengths := ["Strong team"]
    concerns := []
    target_market := "SMB"
    competitive_advantage := "None" }

/-- C4 counterexample: a successful provider response with
`growth_potential = 11` is handed to the engine unchanged, so the
claimed [0, 10] invariant fails on the success path. -/
theorem verdict_score_out_of_range :
    (get_gpt_analysis (Except.ok overRangeAnalysis)).growth_potential = 11 ∧
    ¬ ((get_gpt_analysis (Except.ok overRangeAnalysis)).growth_potential ≤ 10) :=
  ⟨rfl, by decide⟩

/-- C4 amended: the port validates nothing on the success path — it
returns the parsed response unchanged, so its scores lie in [0, 10]
only if the provider's do — while the fallback verdict produced on any
failure does have both scores in [0, 10]. -/
theorem verdict_scores_amended :
    (∀ a : CompanyAnalysis, get_gpt_analysis (Except.ok a) = a) ∧
    (∀ e : String,
      0 ≤ (get_gpt_analysis (Except.error e)).growth_potential ∧
      (get_gpt_analysis (Except.error e)).growth_potential ≤ 10 ∧
      0 ≤ (get_gpt_analysis (Except.error e)).risk_level ∧
      (get_gpt_analysis (Except.error e)).risk_level ≤ 10) := by
  refine ⟨fun _ => rfl, fun e => ?_⟩
  simp only [get_gpt_analysis]
  refine ⟨?_, ?_, ?_, ?_⟩ <;> decide

/-- A record that passes all five heuristic predicates in 2025. -/
def passRecord : CompanyRecord :=
  { company_name := "Acme"
    industry := "Software"
    description := "desc"
    founded_year := 2023
    total_employees := 30
    headquarters := "USA"
    employee_locations := some [("USA", 30)]
    growth_2y := none
    growth_1y := 10
    growth_6m := 5 }

/-- `passRecord` with its workforce moved abroad: same echoed fields,
but the mostly-North-American predicate now fails. -/
def failRecord : CompanyRecord :=
  { passRecord with employee_locations := some [("UK", 30)] }

/-- A verdict that fails the external criteria (`is_saas = false`). -/
def notSaasAnalysis : CompanyAnalysis :=
  { is_saas := false
    growth_potential := 8
    risk_level := 3
    key_strengths := ["Strong team"]
    concerns := ["Churn"]
    target_market := "SMB"
    competitive_advantage := "Brand" }

/-- C5 counterexample: two records with different heuristics-passed
values produce identical result rows, so the emitted row cannot carry
the intermediate booleans — the dict built by `classify_companies` has
no heuristics-passed or external-criteria-passed key. -/
theorem row_drops_intermediate_booleans :
    basic_criteria_met 2025 passRecord = true ∧
    basic_criteria_met 2025 failRecord = false ∧
    classify_company 2025 passRecord (Except.ok notSaasAnalysis) =
      classify_company 2025 failRecord (Except.ok notSaasAnalysis) := by
  refine ⟨?_, ?_, ?_⟩
  · have h3 : is_founded_recently 2025 2023 = true := by decide
    have h4 : has_valid_employee_count 30 = true := by decide
    have h5 : is_north_american "USA" = true := by decide
    have h6 : is_mostly_north_american (some [("USA", 30)]) = true := by
      have h1 : na_employees_of [("USA", 30)] = 30 := rfl
      have h2 : total_employees_of [("USA", 30)] = 30 := rfl
      simp only [is_mostly_north_american, h1, h2]
      norm_num
    have h7 : has_stable_growth none 10 5 = true := by
      simp only [has_stable_growth]
      norm_num
    simp only [basic_criteria_met, passRecord, h3, h4, h5, h6, h7,
      Bool.and_self]
  · have h6 : is_mostly_north_american (some [("UK", 30)]) = false := by
      have h1 : na_employees_of [("UK", 30)] = 0 := rfl
      have h2 : total_employees_of [("UK", 30)] = 30 := rfl
      simp only [is_mostly_north_american, h1, h2]
      norm_num
    simp only [basic_criteria_met, failRecord, passRecord, h6,
      Bool.and_false, Bool.false_and]
  · have hadv :
        advanced_criteria_met (get_gpt_analysis (Except.ok notSaasAnalysis)) =
          false := rfl
    simp only [classify_company, hadv, Bool.and_false, failRecord, passRecord]

/-- C5 amended: the emitted row carries the echoed record fields, the
verdict's fields (lists joined comma-separated) and the final
`Interesting` flag — but not the two intermediate booleans, which are
consumed inside the loop body and discarded. -/
theorem row_fields_amended (current_year : Int) (c : CompanyRecord)
    (outcome : ProviderOutcome) :
    (classify_company current_year c outcome).company_name = c.company_name ∧
    (classify_company current_year c outcome).founded_year = c.founded_year ∧
    (classify_company current_year c outcome).total_employees =
      c.total_employees ∧
    (classify_company current_year c outcome).headquarters = c.headquarters ∧
    (classify_company current_year c outcome).industry = c.industry ∧
    (classify_company current_year c outcome).growth_potential =
      (get_gpt_analysis outcome).growth_potential ∧
    (classify_company current_year c outcome).risk_level =
      (get_gpt_analysis outcome).risk_level ∧
    (classify_company current_year c outcome).key_strengths =
      String.intercalate ", " (get_gpt_analysis outcome).key_strengths ∧
    (classify_company current_year c outcome).concerns =
      String.intercalate ", " (get_gpt_analysis outcome).concerns ∧
    (classify_company current_year c outcome).target_market =
      (get_gpt_analysis outcome).target_market ∧
    (classify_company current_year c outcome).competitive_advantage =
      (get_gpt_analysis outcome).competitive_advantage ∧
    (classify_company current_year c outcome).interesting =
      (if basic_criteria_met current_year c &&
          advanced_criteria_met (get_gpt_analysis outcome)
       then "Yes" else "No") :=
  ⟨rfl, rfl, rfl, rfl, rfl, rfl, rfl, rfl, rfl, rfl, rfl, rfl⟩

/-! ## Claims about the batch summary -/

/-- A result row marked interesting, for exercising the summary. -/
def yesRow : ClassificationRow :=
  { company_name := "A"
    founded_year := 2023
    total_employees := 30
    headquarters := "USA"
    industry := "Software"
    growth_potential := 8
    risk_level := 3
    key_strengths := "s"
    concerns := "c"
    target_market := "m"
    competitive_advantage := "a"
    interesting := "Yes" }

/-- `yesRow` marked not interesting. -/
def noRow : ClassificationRow := { yesRow with interesting := "No" }

/-- A batch of 16 results, 1 of them interesting: the percentage is
exactly 6.25, an exactly-representable tie for one-decimal display. -/
def sixteenRows : List ClassificationRow := yesRow :: List.replicate 15 noRow

/-- C8 counterexample: with 1 interesting of 16 the exact percentage is
6.25; the program's `:.1f` (whose float computation is exact here)
prints "6.2", while half-away-from-zero rounding of the same value
gives "6.3" — so the summary does not use half-away-from-zero. -/
theorem summary_rounding_not_half_away :
    batch_interesting sixteenRows = 1 ∧
    batch_total sixteenRows = 16 ∧
    batch_pct_tenths sixteenRows = 62 ∧
    roundHalfAwayTenths
      ((batch_interesting sixteenRows : ℚ) /
        (batch_total sixteenRows : ℚ) * 100) = 63 := by
  have h1 : batch_interesting sixteenRows = 1 := by decide
  have h2 : batch_total sixteenRows = 16 := by decide
  refine ⟨h1, h2, ?_, ?_⟩
  · simp only [batch_pct_tenths, h1, h2]
    norm_num [roundHalfEvenTenths, qfloor]
  · rw [h1, h2]
    norm_num [roundHalfAwayTenths, qfloor]

/-- C8 amended: the summary percentage is `interesting/total` as a
percentage to one decimal place, rounded half-to-even on the exact
value (the behaviour of the float format in the source); in particular
3 interesting of 7 total prints 42.9%. -/
theorem summary_pct_amended :
    (∀ rows : List ClassificationRow,
      batch_pct_tenths rows =
        roundHalfEvenTenths
          ((batch_interesting rows : ℚ) / (batch_total rows : ℚ) * 100)) ∧
    (∀ rows : List ClassificationRow,
      batch_total rows = 7 → batch_interesting rows = 3 →
      batch_pct_tenths rows = 429) := by
  refine ⟨fun _ => rfl, fun rows h7 h3 => ?_⟩
  simp only [batch_pct_tenths, h7, h3]
  norm_num [roundHalfEvenTenths, qfloor]

/-- A batch of 7 results, 3 of them interesting. -/
def sevenRows : List ClassificationRow :=
  yesRow :: yesRow :: yesRow :: List.replicate 4 noRow

theorem summary_pct_amended_witness :
    batch_total sevenRows = 7 ∧ batch_interesting sevenRows = 3 ∧
    batch_pct_tenths sevenRows = 429 :=
  ⟨by decide, by decide,
    summary_pct_amended.2 sevenRows (by decide) (by decide)⟩

theorem growth_scale_invariant_witness :
    (0 : ℚ) < 2 ∧
    has_stable_growth ((some (10 : ℚ)).map (fun x => 2 * x))
        (2 * 8) (2 * 6) =
      has_stable_growth (some 10) 8 6 :=
  ⟨by norm_num, growth_scale_invariant (some 10) 8 6 2 (by norm_num)⟩
